import Mathlib

/-!
Verification of the ContentReviewLog poller (src/main.js) against its
natural-language specification.  The repository bundles two versions of the
program, v1.1.1 and v1.1.0; both are embedded below.  The embedding follows
the source line by line:

* `Status`, `Entry`, `PageRecord` mirror the fetched data shape
  (`latestRevision.statusKey`, `latestRevision.revisionId`, `page_title`) and
  the cache entries (`{rev, status}`) written by `_callback`.
* `runLoop` is the `for (const i in pages)` loop of the v1.1.1 `_callback`
  (src/main.js lines 134-157); `runLoop110` is the same loop in the bundled
  v1.1.0 copy (lines 389-410), whose debug template dereferences `curr.rev`
  even when `curr` is `undefined` and therefore throws a TypeError on any
  record that has no stored entry.
* `callback` / `callback110` wrap the loops with the cold-start seeding,
  the `_post` call and the `cache.json` write of the respective versions.
* `buildWikiUrl` is the URL reconstruction of `_init` (lines 67-73),
  `mkDescription` / `makeEmbed` the embed construction of `_post`
  (lines 183-195).

On a cold start (`this._data` unset) the source assigns the raw fetched
object to `this._data`; its keys are the list indices of `jsPages`, which are
disjoint from page titles, so every subsequent `this._data[title]` lookup
misses.  The model therefore starts a cold cycle from the empty mapping.
-/

namespace ContentReviewLog

/-- Review status of a JavaScript page, the `statusKey` field of a fetched
record.  The source compares it as a string; the four values are the ones the
specification's data model lists. -/
inductive Status where
  | unsubmitted
  | awaiting
  | live
  | rejected
deriving DecidableEq, Repr

/-- One stored snapshot entry, the `{rev, status}` object `_callback` writes
into `this._data[title]`. -/
structure Entry where
  rev : Nat
  status : Status
deriving DecidableEq, Repr

/-- One fetched page record: `page_title`, `latestRevision.revisionId` and
`latestRevision.statusKey`. -/
structure PageRecord where
  title : String
  rev : Nat
  status : Status
deriving DecidableEq, Repr

/-- The in-memory snapshot `this._data`: a mapping from page title to the
stored entry. -/
abbrev Snapshot := String → Option Entry

/-- `this._data[title] = {rev, status}`: overwrite or create the entry for
one title. -/
def Snapshot.set (s : Snapshot) (t : String) (e : Entry) : Snapshot :=
  fun u => if u = t then some e else s u

/-- The snapshot with no entries. -/
def emptySnapshot : Snapshot := fun _ => none

/-- One element of the `embeds` array collected by `_callback`:
`[title, rev, status]`. -/
abbrev EmbedItem := String × Nat × Status

/-- The notify-worthiness test of `_callback`
(`(curr.rev !== rev || curr.status !== status) && status !== 'unsubmitted'`),
identical in v1.1.1 and v1.1.0. -/
def notifyWorthy (curr : Entry) (rev : Nat) (status : Status) : Bool :=
  (curr.rev != rev || curr.status != status) && status != Status.unsubmitted

/-- State after running the record loop of `_callback`: the mutated
`this._data`, the collected `embeds`, and whether the loop executed the
`return` on `curr.rev > rev` (aborting the rest of `_callback`). -/
structure LoopResult where
  data : Snapshot
  embeds : List EmbedItem
  aborted : Bool

/-- The v1.1.1 record loop of `_callback` (src/main.js lines 134-157).
For each record: look up `curr = this._data[title]`; if it exists and
`curr.rev > rev`, `return` (abort the whole cycle); otherwise push an embed
when the change is notify-worthy; in every non-aborting case overwrite
`this._data[title] = {rev, status}`. -/
def runLoop : Snapshot → List EmbedItem → List PageRecord → LoopResult
  | s, es, [] => ⟨s, es, false⟩
  | s, es, p :: ps =>
    match s p.title with
    | none => runLoop (Snapshot.set s p.title ⟨p.rev, p.status⟩) es ps
    | some curr =>
      if curr.rev > p.rev then
        ⟨s, es, true⟩
      else if notifyWorthy curr p.rev p.status then
        runLoop (Snapshot.set s p.title ⟨p.rev, p.status⟩)
          (es ++ [(p.title, p.rev, p.status)]) ps
      else
        runLoop (Snapshot.set s p.title ⟨p.rev, p.status⟩) es ps

/-- The v1.1.0 record loop of `_callback` (src/main.js lines 389-410).
The stale check is `curr && curr.rev > rev`, but the following debug template
evaluates `curr.rev` unconditionally, so a record with no stored entry throws
a TypeError; `.error` carries `this._data` as mutated up to that point. -/
def runLoop110 : Snapshot → List EmbedItem → List PageRecord →
    Except Snapshot LoopResult
  | s, es, [] => .ok ⟨s, es, false⟩
  | s, es, p :: ps =>
    match s p.title with
    | none => .error s
    | some curr =>
      if curr.rev > p.rev then
        .ok ⟨s, es, true⟩
      else if notifyWorthy curr p.rev p.status then
        runLoop110 (Snapshot.set s p.title ⟨p.rev, p.status⟩)
          (es ++ [(p.title, p.rev, p.status)]) ps
      else
        runLoop110 (Snapshot.set s p.title ⟨p.rev, p.status⟩) es ps

/-- Observable outcome of one `_callback` invocation: the final `this._data`,
the embed items delivered to the webhook, whether `_post` was invoked at all,
and whether the `cache.json` write was reached. -/
structure CallbackResult where
  data : Snapshot
  posted : List EmbedItem
  postCalled : Bool
  saved : Bool

/-- `this._data` at the start of the loop: the prior snapshot, or the empty
mapping on a cold start (see the header comment on the raw `jsPages`
assignment). -/
def initialData (prior : Option Snapshot) : Snapshot :=
  prior.getD emptySnapshot

/-- The v1.1.1 `_callback` (src/main.js lines 124-166) on a successful fetch:
run the loop; on abort neither `_post` nor the `cache.json` write run; else
`_post` runs only when `embeds.length` is non-zero, and the cache is written. -/
def callback (prior : Option Snapshot) (pages : List PageRecord) :
    CallbackResult :=
  let r := runLoop (initialData prior) [] pages
  if r.aborted then
    ⟨r.data, [], false, false⟩
  else
    ⟨r.data, r.embeds, !r.embeds.isEmpty, true⟩

/-- The v1.1.0 `_callback` (src/main.js lines 379-417).  A thrown TypeError
propagates out of the promise callback: nothing is posted or saved but the
in-place mutations made before the throw remain.  When the loop completes
without aborting, `_post` is invoked unconditionally, even with an empty
embed list. -/
def callback110 (prior : Option Snapshot) (pages : List PageRecord) :
    CallbackResult :=
  match runLoop110 (initialData prior) [] pages with
  | .error s => ⟨s, [], false, false⟩
  | .ok r =>
    if r.aborted then
      ⟨r.data, [], false, false⟩
    else
      ⟨r.data, r.embeds, true, true⟩

/-- Wiki-related configuration consumed by `_init`: `config.wiki`,
`config.domain` and the optional `config.lang`. -/
structure Config where
  wiki : String
  domain : String
  lang : Option String
deriving DecidableEq, Repr

/-- JavaScript truthiness of `config.lang`: absent or the empty string is
falsy. -/
def langTruthy : Option String → Bool
  | none => false
  | some l => l != ""

/-- `config.wiki.includes('.')`. -/
def hasDot (s : String) : Bool :=
  s.data.contains '.'

/-- The URL reconstruction of `_init` (src/main.js lines 67-73), identical in
both bundled versions: a `config.wiki` containing a dot yields
`http://{wiki}.{domain}` (plain HTTP, the wiki string kept whole); otherwise
a truthy `config.lang` is appended as a path segment under HTTPS. -/
def buildWikiUrl (c : Config) : String :=
  if hasDot c.wiki then
    "http://" ++ c.wiki ++ "." ++ c.domain
  else if langTruthy c.lang then
    "https://" ++ c.wiki ++ "." ++ c.domain ++ "/" ++ c.lang.getD ""
  else
    "https://" ++ c.wiki ++ "." ++ c.domain

/-- The part of a string before its first dot. -/
def beforeDot (s : String) : String :=
  String.mk (s.data.takeWhile (fun c => c != '.'))

/-- The part of a string after its first dot. -/
def afterDot (s : String) : String :=
  String.mk ((s.data.dropWhile (fun c => c != '.')).drop 1)

/-- The URL formula as the specification's §6 states it: a dotted subdomain
is split at its first dot into (sub, lang) and the URL is
`https://{sub}.{domain}/{lang}`; the dot-free branches are as in the code. -/
def specWikiUrl (c : Config) : String :=
  if hasDot c.wiki then
    "https://" ++ beforeDot c.wiki ++ "." ++ c.domain ++ "/" ++
      afterDot c.wiki
  else if langTruthy c.lang then
    "https://" ++ c.wiki ++ "." ++ c.domain ++ "/" ++ c.lang.getD ""
  else
    "https://" ++ c.wiki ++ "." ++ c.domain

/-- Hexadecimal digit used by the percent encoder (uppercase, as produced by
`encodeURIComponent`). -/
def hexDigit (n : Nat) : Char :=
  if n < 10 then Char.ofNat (48 + n) else Char.ofNat (55 + n)

/-- The characters `encodeURIComponent` leaves unescaped: ASCII
alphanumerics and `- _ . ! ~ * ' ( )`. -/
def isUnescapedURIChar (c : Char) : Bool :=
  c.isAlphanum || c = '-' || c = '_' || c = '.' || c = '!' || c = '~' ||
    c = '*' || c.toNat = 39 || c = '(' || c = ')'

/-- UTF-8 bytes of a Unicode scalar value. -/
def utf8Bytes (n : Nat) : List Nat :=
  if n < 0x80 then [n]
  else if n < 0x800 then
    [0xC0 + n / 64, 0x80 + n % 64]
  else if n < 0x10000 then
    [0xE0 + n / 4096, 0x80 + n / 64 % 64, 0x80 + n % 64]
  else
    [0xF0 + n / 262144, 0x80 + n / 4096 % 64, 0x80 + n / 64 % 64,
      0x80 + n % 64]

/-- Percent-escape of one byte, `%XY`. -/
def percentByte (b : Nat) : String :=
  String.mk ['%', hexDigit (b / 16), hexDigit (b % 16)]

/-- JavaScript's `encodeURIComponent`, applied by `_post` to the page title. -/
def encodeURIComponent (s : String) : String :=
  String.join (s.data.map (fun c =>
    if isUnescapedURIChar c then String.singleton c
    else String.join ((utf8Bytes c.toNat).map percentByte)))

/-- The `[title](.../wiki/MediaWiki:encTitle)` link opening the embed
description. -/
def pageLink (wiki title : String) : String :=
  "[" ++ title ++ "](" ++ wiki ++ "/wiki/MediaWiki:" ++
    encodeURIComponent title ++ ")"

/-- The ` | [Diff](.../?diff=rev)` part of the embed description. -/
def diffLink (wiki : String) (rev : Nat) : String :=
  " | [Diff](" ++ wiki ++ "/?diff=" ++ Nat.repr rev ++ ")"

/-- The ` | [Talk page](...)` part appended for rejected revisions. -/
def talkLink (wiki title : String) : String :=
  " | [Talk page](" ++ wiki ++ "/wiki/MediaWiki_talk:" ++
    encodeURIComponent title ++ ")"

/-- The embed description built by `_post` (src/main.js lines 185-188):
page link, then the diff link, then — for `rejected` only — the talk-page
link. -/
def mkDescription (wiki title : String) (rev : Nat) (status : Status) :
    String :=
  pageLink wiki title ++ diffLink wiki rev ++
    (if status = Status.rejected then talkLink wiki title else "")

/-- The `DATA` table: display title and colour per status; there is no entry
for `unsubmitted` (indexing `DATA` with it would throw). -/
def DATA : Status → Option (String × Nat)
  | .awaiting => some ("Revision awaiting review", 0x008CCE)
  | .live => some ("Revision approved", 0x76BF06)
  | .rejected => some ("Revision rejected", 0xE1390B)
  | .unsubmitted => none

/-- One Discord embed as built by `_post` (the timestamp field is wall-clock
time and is left out of the model). -/
structure EmbedMsg where
  color : Nat
  description : String
  title : String
  url : String
deriving DecidableEq, Repr

/-- The embed construction of `_post` for one `[title, rev, status]` item,
identical in both bundled versions.  `none` models the TypeError thrown by
`DATA[status][1]` for a status outside the table. -/
def makeEmbed (wiki title : String) (rev : Nat) (status : Status) :
    Option EmbedMsg :=
  match DATA status with
  | none => none
  | some (t, c) =>
    some
      { color := c
        description := mkDescription wiki title rev status
        title := t
        url := wiki ++ "/?oldid=" ++ Nat.repr rev }

/-! ## Basic lemmas about the record loop -/

theorem Snapshot.set_apply (s : Snapshot) (t : String) (e : Entry)
    (u : String) : Snapshot.set s t e u = if u = t then some e else s u :=
  rfl

theorem Snapshot.set_apply_ne (s : Snapshot) (t : String) (e : Entry)
    (u : String) (h : u ≠ t) : Snapshot.set s t e u = s u := by
  simp [Snapshot.set, h]

theorem Snapshot.set_isSome (s : Snapshot) (t : String) (e : Entry)
    (u : String) (h : (s u).isSome = true) :
    (Snapshot.set s t e u).isSome = true := by
  by_cases hu : u = t <;> simp [Snapshot.set, hu, h]

theorem runLoop_nil (s : Snapshot) (es : List EmbedItem) :
    runLoop s es [] = ⟨s, es, false⟩ :=
  rfl

theorem runLoop_cons_none (s : Snapshot) (es : List EmbedItem)
    (p : PageRecord) (ps : List PageRecord) (h : s p.title = none) :
    runLoop s es (p :: ps) =
      runLoop (Snapshot.set s p.title ⟨p.rev, p.status⟩) es ps := by
  simp only [runLoop, h]

theorem runLoop_cons_abort (s : Snapshot) (es : List EmbedItem)
    (p : PageRecord) (ps : List PageRecord) (curr : Entry)
    (h : s p.title = some curr) (hab : curr.rev > p.rev) :
    runLoop s es (p :: ps) = ⟨s, es, true⟩ := by
  simp only [runLoop, h]
  simp [hab]

theorem runLoop_cons_notify (s : Snapshot) (es : List EmbedItem)
    (p : PageRecord) (ps : List PageRecord) (curr : Entry)
    (h : s p.title = some curr) (hab : ¬ curr.rev > p.rev)
    (hw : notifyWorthy curr p.rev p.status = true) :
    runLoop s es (p :: ps) =
      runLoop (Snapshot.set s p.title ⟨p.rev, p.status⟩)
        (es ++ [(p.title, p.rev, p.status)]) ps := by
  simp only [runLoop, h]
  simp [hab, hw]

theorem runLoop_cons_silent (s : Snapshot) (es : List EmbedItem)
    (p : PageRecord) (ps : List PageRecord) (curr : Entry)
    (h : s p.title = some curr) (hab : ¬ curr.rev > p.rev)
    (hw : notifyWorthy curr p.rev p.status = false) :
    runLoop s es (p :: ps) =
      runLoop (Snapshot.set s p.title ⟨p.rev, p.status⟩) es ps := by
  simp only [runLoop, h]
  simp [hab, hw]

/-- Running the loop on a concatenation: if the first half aborts the second
half never runs, else the second half continues from the first half's
state. -/
theorem runLoop_append (pre rest : List PageRecord) :
    ∀ (s : Snapshot) (es : List EmbedItem),
      runLoop s es (pre ++ rest) =
        if (runLoop s es pre).aborted then runLoop s es pre
        else runLoop (runLoop s es pre).data (runLoop s es pre).embeds rest := by
  induction pre with
  | nil =>
    intro s es
    simp [runLoop_nil]
  | cons p pre ih =>
    intro s es
    rw [List.cons_append]
    cases hc : s p.title with
    | none =>
      rw [runLoop_cons_none _ _ _ _ hc, runLoop_cons_none _ _ _ _ hc, ih]
    | some curr =>
      by_cases hab : curr.rev > p.rev
      · rw [runLoop_cons_abort _ _ _ _ _ hc hab,
          runLoop_cons_abort _ _ _ _ _ hc hab]
        simp
      · by_cases hw : notifyWorthy curr p.rev p.status
        · rw [runLoop_cons_notify _ _ _ _ _ hc hab hw,
            runLoop_cons_notify _ _ _ _ _ hc hab hw, ih]
        · rw [runLoop_cons_silent _ _ _ _ _ hc hab (by simpa using hw),
            runLoop_cons_silent _ _ _ _ _ hc hab (by simpa using hw), ih]

/-- Titles never mentioned by the records keep their stored value. -/
theorem runLoop_data_stable (pages : List PageRecord) :
    ∀ (s : Snapshot) (es : List EmbedItem) (t : String),
      (∀ p ∈ pages, p.title ≠ t) → (runLoop s es pages).data t = s t := by
  induction pages with
  | nil =>
    intro s es t _
    rfl
  | cons p ps ih =>
    intro s es t h
    have hpt : p.title ≠ t := h p (List.mem_cons_self p ps)
    have hps : ∀ q ∈ ps, q.title ≠ t := fun q hq => h q (List.mem_cons_of_mem p hq)
    cases hc : s p.title with
    | none =>
      rw [runLoop_cons_none _ _ _ _ hc, ih _ _ _ hps,
        Snapshot.set_apply_ne _ _ _ _ (fun he => hpt he.symm)]
    | some curr =>
      by_cases hab : curr.rev > p.rev
      · rw [runLoop_cons_abort _ _ _ _ _ hc hab]
      · by_cases hw : notifyWorthy curr p.rev p.status
        · rw [runLoop_cons_notify _ _ _ _ _ hc hab hw, ih _ _ _ hps,
            Snapshot.set_apply_ne _ _ _ _ (fun he => hpt he.symm)]
        · rw [runLoop_cons_silent _ _ _ _ _ hc hab (by simpa using hw),
            ih _ _ _ hps,
            Snapshot.set_apply_ne _ _ _ _ (fun he => hpt he.symm)]

theorem initialData_some (s : Snapshot) : initialData (some s) = s :=
  rfl

theorem initialData_none : initialData none = emptySnapshot :=
  rfl

/-- Records with all-fresh, pairwise distinct titles: the loop adds no
embeds, never aborts, and seeds every record's entry. -/
theorem runLoop_allNew (pages : List PageRecord) :
    ∀ (s : Snapshot) (es : List EmbedItem),
      (∀ p ∈ pages, s p.title = none) →
      (pages.map PageRecord.title).Nodup →
      (runLoop s es pages).embeds = es ∧
        (runLoop s es pages).aborted = false ∧
        ∀ p ∈ pages,
          (runLoop s es pages).data p.title = some ⟨p.rev, p.status⟩ := by
  induction pages with
  | nil =>
    intro s es _ _
    exact ⟨rfl, rfl, by simp⟩
  | cons p ps ih =>
    intro s es hnew hnd
    have hp : s p.title = none := hnew p (List.mem_cons_self p ps)
    have hnd' : (∀ x ∈ ps, ¬ x.title = p.title) ∧
        (ps.map PageRecord.title).Nodup := by
      simpa using hnd
    have hne : ∀ q ∈ ps, q.title ≠ p.title := fun q hq => hnd'.1 q hq
    have hnew' : ∀ q ∈ ps,
        Snapshot.set s p.title ⟨p.rev, p.status⟩ q.title = none := by
      intro q hq
      rw [Snapshot.set_apply_ne _ _ _ _ (hne q hq)]
      exact hnew q (List.mem_cons_of_mem p hq)
    obtain ⟨he, ha, hd⟩ :=
      ih (Snapshot.set s p.title ⟨p.rev, p.status⟩) es hnew' hnd'.2
    rw [runLoop_cons_none _ _ _ _ hp]
    refine ⟨he, ha, ?_⟩
    intro q hq
    rcases List.mem_cons.mp hq with hq | hq
    · subst hq
      rw [runLoop_data_stable ps _ es q.title (fun r hr => hne r hr)]
      simp [Snapshot.set]
    · exact hd q hq

/-! ## Claim C1 -/

/-- C1, counterexample (end-to-end example 3 of the specification): with the
previous entry `A.js -> {rev 6, live}` and the incoming record
`A.js, rev 6, awaiting`, the claim says the stored entry remains
`{rev 6, live}` and no notification is emitted; the code overwrites the entry
and posts a notification. -/
theorem c1_counterexample :
    ¬ ((callback (some (Snapshot.set emptySnapshot "A.js" ⟨6, Status.live⟩))
          [⟨"A.js", 6, Status.awaiting⟩]).data "A.js" =
            some ⟨6, Status.live⟩ ∧
        (callback (some (Snapshot.set emptySnapshot "A.js" ⟨6, Status.live⟩))
          [⟨"A.js", 6, Status.awaiting⟩]).posted = []) := by
  decide

/-- C1, amended: for a previous entry with status `live` and an incoming
record with the same revision and status `awaiting`, the loop treats the
record as notify-worthy: the stored entry is overwritten with the incoming
data and the record is appended to the notification batch. -/
theorem c1_theorem (s : Snapshot) (es : List EmbedItem) (p : PageRecord)
    (ps : List PageRecord) (curr : Entry) (hc : s p.title = some curr)
    (hs : curr.status = Status.live) (hp : p.status = Status.awaiting)
    (hr : curr.rev = p.rev) :
    runLoop s es (p :: ps) =
      runLoop (Snapshot.set s p.title ⟨p.rev, p.status⟩)
        (es ++ [(p.title, p.rev, p.status)]) ps := by
  apply runLoop_cons_notify s es p ps curr hc (by omega)
  simp [notifyWorthy, hs, hp, hr]

/-- Witness for `c1_theorem` at the concrete input of end-to-end example 3. -/
theorem c1_witness :
    runLoop (Snapshot.set emptySnapshot "A.js" ⟨6, Status.live⟩) []
        [⟨"A.js", 6, Status.awaiting⟩] =
      runLoop
        (Snapshot.set (Snapshot.set emptySnapshot "A.js" ⟨6, Status.live⟩)
          "A.js" ⟨6, Status.awaiting⟩)
        [("A.js", 6, Status.awaiting)] [] :=
  c1_theorem (Snapshot.set emptySnapshot "A.js" ⟨6, Status.live⟩) []
    ⟨"A.js", 6, Status.awaiting⟩ [] ⟨6, Status.live⟩ (by decide) rfl rfl rfl

/-! ## Claim C2 -/

/-- C2, counterexample: with the previous entry `A.js -> {rev 7, awaiting}`
and the incoming record `A.js, rev 7, unsubmitted`, the claim says the stored
entry is not overwritten; the code overwrites it with
`{rev 7, unsubmitted}`. -/
theorem c2_counterexample :
    ¬ ((callback
          (some (Snapshot.set emptySnapshot "A.js" ⟨7, Status.awaiting⟩))
          [⟨"A.js", 7, Status.unsubmitted⟩]).data "A.js" =
        some ⟨7, Status.awaiting⟩) := by
  decide

/-- C2, amended: for a previous entry with status different from
`unsubmitted` and an incoming record with equal revision and status
`unsubmitted`, the loop performs a silent update: the stored entry is
overwritten with the incoming data and no notification is queued. -/
theorem c2_theorem (s : Snapshot) (es : List EmbedItem) (p : PageRecord)
    (ps : List PageRecord) (curr : Entry) (hc : s p.title = some curr)
    (_hcs : curr.status ≠ Status.unsubmitted)
    (hp : p.status = Status.unsubmitted) (hr : curr.rev = p.rev) :
    runLoop s es (p :: ps) =
      runLoop (Snapshot.set s p.title ⟨p.rev, p.status⟩) es ps := by
  apply runLoop_cons_silent s es p ps curr hc (by omega)
  simp [notifyWorthy, hp]

/-- Witness for `c2_theorem` at the concrete input of end-to-end example 4. -/
theorem c2_witness :
    runLoop (Snapshot.set emptySnapshot "A.js" ⟨7, Status.awaiting⟩) []
        [⟨"A.js", 7, Status.unsubmitted⟩] =
      runLoop
        (Snapshot.set
          (Snapshot.set emptySnapshot "A.js" ⟨7, Status.awaiting⟩)
          "A.js" ⟨7, Status.unsubmitted⟩)
        [] [] :=
  c2_theorem (Snapshot.set emptySnapshot "A.js" ⟨7, Status.awaiting⟩) []
    ⟨"A.js", 7, Status.unsubmitted⟩ [] ⟨7, Status.awaiting⟩ (by decide)
    (by decide) rfl rfl

/-! ## Claim C3 -/

/-- C3: for a previous entry and an incoming record with status
`unsubmitted` whose revision is not a regression, the loop performs a silent
update and never a notifying one: the stored entry is overwritten with the
incoming data and nothing is added to the notification batch. -/
theorem c3_theorem (s : Snapshot) (es : List EmbedItem) (p : PageRecord)
    (ps : List PageRecord) (curr : Entry) (hc : s p.title = some curr)
    (hp : p.status = Status.unsubmitted) (hr : curr.rev ≤ p.rev) :
    runLoop s es (p :: ps) =
      runLoop (Snapshot.set s p.title ⟨p.rev, p.status⟩) es ps := by
  apply runLoop_cons_silent s es p ps curr hc (by omega)
  simp [notifyWorthy, hp]

/-- Witness for `c3_theorem`: previous entry `{rev 7, awaiting}`, incoming
`rev 9, unsubmitted`. -/
theorem c3_witness :
    runLoop (Snapshot.set emptySnapshot "B.js" ⟨7, Status.awaiting⟩) []
        [⟨"B.js", 9, Status.unsubmitted⟩] =
      runLoop
        (Snapshot.set
          (Snapshot.set emptySnapshot "B.js" ⟨7, Status.awaiting⟩)
          "B.js" ⟨9, Status.unsubmitted⟩)
        [] [] :=
  c3_theorem (Snapshot.set emptySnapshot "B.js" ⟨7, Status.awaiting⟩) []
    ⟨"B.js", 9, Status.unsubmitted⟩ [] ⟨7, Status.awaiting⟩ (by decide) rfl
    (by decide)

/-! ## Claim C4 -/

/-- C4: when the loop reaches a record whose revision is below the stored
entry's revision, the cycle aborts: after the cycle the stored entry for that
title still holds the value it was classified against, and no notification is
emitted. -/
theorem c4_theorem (s : Snapshot) (pre : List PageRecord) (p : PageRecord)
    (post : List PageRecord) (curr : Entry)
    (hab : (runLoop s [] pre).aborted = false)
    (hc : (runLoop s [] pre).data p.title = some curr)
    (hr : p.rev < curr.rev) :
    (callback (some s) (pre ++ p :: post)).data p.title = some curr ∧
      (callback (some s) (pre ++ p :: post)).posted = [] := by
  have key : runLoop s [] (pre ++ p :: post) =
      ⟨(runLoop s [] pre).data, (runLoop s [] pre).embeds, true⟩ := by
    rw [runLoop_append pre (p :: post) s [], if_neg (by simp [hab])]
    exact runLoop_cons_abort _ _ _ _ _ hc (by omega)
  simp only [callback, initialData_some, key]
  simp [hc]

/-- Witness for `c4_theorem`: stored entry `{rev 5, awaiting}`, incoming
revision 4. -/
theorem c4_witness :
    (callback (some (Snapshot.set emptySnapshot "A.js" ⟨5, Status.awaiting⟩))
        ([] ++ ⟨"A.js", 4, Status.live⟩ :: [])).data "A.js" =
      some ⟨5, Status.awaiting⟩ ∧
    (callback (some (Snapshot.set emptySnapshot "A.js" ⟨5, Status.awaiting⟩))
        ([] ++ ⟨"A.js", 4, Status.live⟩ :: [])).posted = [] :=
  c4_theorem (Snapshot.set emptySnapshot "A.js" ⟨5, Status.awaiting⟩) []
    ⟨"A.js", 4, Status.live⟩ [] ⟨5, Status.awaiting⟩ (by decide) (by decide)
    (by decide)

/-! ## Claim C5 -/

/-- C5, counterexample: the fetch succeeded (the callback runs) with the
previous entry `A.js -> {rev 5, awaiting}` and the incoming record
`A.js, rev 4, awaiting`; the claim says the snapshot is persisted after every
such cycle, but the revision regression aborts the cycle before the
`cache.json` write. -/
theorem c5_counterexample :
    (callback (some (Snapshot.set emptySnapshot "A.js" ⟨5, Status.awaiting⟩))
        [⟨"A.js", 4, Status.awaiting⟩]).saved = false := by
  decide

/-- C5, amended: after every poll cycle whose fetch succeeds and whose record
loop completes without hitting a revision regression (which aborts the
cycle), the snapshot is persisted, regardless of which decisions were taken
and whether any notification fired. -/
theorem c5_theorem (prior : Option Snapshot) (pages : List PageRecord)
    (h : (runLoop (initialData prior) [] pages).aborted = false) :
    (callback prior pages).saved = true := by
  simp [callback, h]

/-- Witness for `c5_theorem` on a cold-start cycle with one record. -/
theorem c5_witness :
    (runLoop (initialData (some emptySnapshot)) []
        [⟨"A.js", 1, Status.awaiting⟩]).aborted = false ∧
    (callback (some emptySnapshot) [⟨"A.js", 1, Status.awaiting⟩]).saved =
      true :=
  ⟨by decide,
    c5_theorem (some emptySnapshot) [⟨"A.js", 1, Status.awaiting⟩]
      (by decide)⟩

/-! ## Claim C6 -/

/-- C6: a record whose title has no stored entry is seeded — the incoming
data is written and nothing is added to the notification batch — and a
cold-start cycle (no persisted state) over records with pairwise distinct
titles seeds every entry and posts nothing. -/
theorem c6_theorem :
    (∀ (s : Snapshot) (es : List EmbedItem) (p : PageRecord)
        (ps : List PageRecord), s p.title = none →
        runLoop s es (p :: ps) =
          runLoop (Snapshot.set s p.title ⟨p.rev, p.status⟩) es ps) ∧
    (∀ pages : List PageRecord, (pages.map PageRecord.title).Nodup →
      (callback none pages).posted = [] ∧
      ∀ p ∈ pages,
        (callback none pages).data p.title = some ⟨p.rev, p.status⟩) := by
  constructor
  · exact runLoop_cons_none
  · intro pages hnd
    obtain ⟨he, ha, hd⟩ :=
      runLoop_allNew pages emptySnapshot [] (fun p _ => rfl) hnd
    constructor
    · simp [callback, initialData_none, ha, he]
    · intro p hp
      simpa [callback, initialData_none, ha] using hd p hp

/-- Witness for `c6_theorem`: the seeding step on a fresh title, and the
cold-start cycle of end-to-end example 1. -/
theorem c6_witness :
    (runLoop emptySnapshot [] [⟨"A.js", 5, Status.awaiting⟩] =
      runLoop (Snapshot.set emptySnapshot "A.js" ⟨5, Status.awaiting⟩)
        [] []) ∧
    (callback none [⟨"A.js", 5, Status.awaiting⟩]).posted = [] ∧
    (callback none [⟨"A.js", 5, Status.awaiting⟩]).data "A.js" =
      some ⟨5, Status.awaiting⟩ :=
  ⟨ c6_theorem.1 emptySnapshot [] ⟨"A.js", 5, Status.awaiting⟩ [] rfl,
    ( c6_theorem.2 [⟨"A.js", 5, Status.awaiting⟩] (by decide)).1,
    ( c6_theorem.2 [⟨"A.js", 5, Status.awaiting⟩] (by decide)).2
      ⟨"A.js", 5, Status.awaiting⟩ (by decide)⟩

/-! ## Claim C9 -/

/-- C9: a record whose revision is below its stored entry's revision stops
the whole cycle: the final in-memory state is exactly the state accumulated
before that record (so earlier overwrites survive and later records are never
classified), nothing is posted — including embeds already collected — and the
cache file is not written. -/
theorem c9_theorem (s : Snapshot) (pre : List PageRecord) (p : PageRecord)
    (post : List PageRecord) (curr : Entry)
    (hab : (runLoop s [] pre).aborted = false)
    (hc : (runLoop s [] pre).data p.title = some curr)
    (hr : p.rev < curr.rev) :
    callback (some s) (pre ++ p :: post) =
      ⟨(runLoop s [] pre).data, [], false, false⟩ := by
  have key : runLoop s [] (pre ++ p :: post) =
      ⟨(runLoop s [] pre).data, (runLoop s [] pre).embeds, true⟩ := by
    rw [runLoop_append pre (p :: post) s [], if_neg (by simp [hab])]
    exact runLoop_cons_abort _ _ _ _ _ hc (by omega)
  simp [callback, initialData_some, key]

/-- Witness for `c9_theorem`: one record seeded before the regression record,
one record after it. -/
theorem c9_witness :
    callback (some (Snapshot.set emptySnapshot "X.js" ⟨9, Status.live⟩))
        ([⟨"N.js", 3, Status.awaiting⟩] ++
          ⟨"X.js", 2, Status.awaiting⟩ :: [⟨"Z.js", 1, Status.live⟩]) =
      ⟨(runLoop (Snapshot.set emptySnapshot "X.js" ⟨9, Status.live⟩) []
          [⟨"N.js", 3, Status.awaiting⟩]).data, [], false, false⟩ :=
  c9_theorem (Snapshot.set emptySnapshot "X.js" ⟨9, Status.live⟩)
    [⟨"N.js", 3, Status.awaiting⟩] ⟨"X.js", 2, Status.awaiting⟩
    [⟨"Z.js", 1, Status.live⟩] ⟨9, Status.live⟩ (by decide) (by decide)
    (by decide)

/-! ## Claim C7 -/

/-- C7, counterexample: for `wiki = "a.b"`, `domain = "fandom.com"`, no
language, the claim's formula gives `https://a.fandom.com/b` while `_init`
builds `http://a.b.fandom.com` — plain HTTP and no splitting. -/
theorem c7_counterexample :
    buildWikiUrl ⟨"a.b", "fandom.com", none⟩ ≠
      specWikiUrl ⟨"a.b", "fandom.com", none⟩ := by
  decide

/-- C7, amended: when the configured subdomain contains a literal dot the
base URL is `http://{wiki}.{domain}` (plain HTTP, the subdomain kept whole,
no language path); when it does not, the URL is exactly as the specification
states it. -/
theorem c7_theorem (c : Config) :
    (hasDot c.wiki = true →
      buildWikiUrl c = "http://" ++ c.wiki ++ "." ++ c.domain) ∧
    (hasDot c.wiki = false → buildWikiUrl c = specWikiUrl c) := by
  constructor
  · intro h
    simp [buildWikiUrl, h]
  · intro h
    simp [buildWikiUrl, specWikiUrl, h]

/-- Witness for `c7_theorem` on a dotted and a dot-free configuration. -/
theorem c7_witness :
    buildWikiUrl ⟨"a.b", "fandom.com", none⟩ =
      "http://" ++ "a.b" ++ "." ++ "fandom.com" ∧
    buildWikiUrl ⟨"dev", "fandom.com", some "es"⟩ =
      specWikiUrl ⟨"dev", "fandom.com", some "es"⟩ :=
  ⟨ ( c7_theorem ⟨"a.b", "fandom.com", none⟩).1 (by decide),
    ( c7_theorem ⟨"dev", "fandom.com", some "es"⟩).2 (by decide)⟩

/-! ## Claim C8 -/

/-- The diff link is a substring of every embed description `_post` builds. -/
theorem diffLink_in_description (wiki title : String) (rev : Nat)
    (status : Status) :
    (diffLink wiki rev).data <:+: (mkDescription wiki title rev status).data :=
  ⟨(pageLink wiki title).data,
    (if status = Status.rejected then talkLink wiki title else "").data, rfl⟩

/-- C8, counterexample: take the notify-worthy payload
`title "A.js", revision 6, status live` with live revision also 6.  The claim
says the diff-style link appears exactly when the revision differs from the
live revision, so here it should be absent; the message `_post` builds
contains it regardless (the posted payload does not even carry the live
revision). -/
theorem c8_counterexample :
    ¬ (((diffLink "https://dev.fandom.com" 6).data <:+:
          (mkDescription "https://dev.fandom.com" "A.js" 6
            Status.live).data) ↔ (6 : Nat) ≠ 6) := by
  decide

/-- C8, amended: every embed `_post` builds contains the diff-style link for
the incoming revision and carries a permalink to that single revision in its
`url` field, independent of any live revision (which the posted payload does
not include); the talk-page link component is appended exactly when the
status is `rejected`. -/
theorem c8_theorem (wiki title : String) (rev : Nat) (status : Status)
    (h : status ≠ Status.unsubmitted) :
    ∃ e, makeEmbed wiki title rev status = some e ∧
      e.description = pageLink wiki title ++ diffLink wiki rev ++
        (if status = Status.rejected then talkLink wiki title else "") ∧
      e.url = wiki ++ "/?oldid=" ++ Nat.repr rev ∧
      (diffLink wiki rev).data <:+: e.description.data := by
  cases status with
  | unsubmitted => exact absurd rfl h
  | awaiting =>
    exact ⟨_, rfl, rfl, rfl, diffLink_in_description wiki title rev _⟩
  | live =>
    exact ⟨_, rfl, rfl, rfl, diffLink_in_description wiki title rev _⟩
  | rejected =>
    exact ⟨_, rfl, rfl, rfl, diffLink_in_description wiki title rev _⟩

/-- Witness for `c8_theorem` on a rejected revision. -/
theorem c8_witness :
    ∃ e, makeEmbed "https://dev.fandom.com" "A.js" 5 Status.rejected =
        some e ∧
      e.description =
        pageLink "https://dev.fandom.com" "A.js" ++
          diffLink "https://dev.fandom.com" 5 ++
          (if Status.rejected = Status.rejected then
            talkLink "https://dev.fandom.com" "A.js"
          else "") ∧
      e.url = "https://dev.fandom.com" ++ "/?oldid=" ++ Nat.repr 5 ∧
      (diffLink "https://dev.fandom.com" 5).data <:+: e.description.data :=
  c8_theorem "https://dev.fandom.com" "A.js" 5 Status.rejected (by decide)

/-! ## Claim C10 -/

/-- On record lists whose titles all have stored entries, the v1.1.0 loop
throws no TypeError and computes exactly what the v1.1.1 loop computes. -/
theorem runLoop110_eq_ok (pages : List PageRecord) :
    ∀ (s : Snapshot) (es : List EmbedItem),
      (∀ p ∈ pages, (s p.title).isSome = true) →
      runLoop110 s es pages = .ok (runLoop s es pages) := by
  induction pages with
  | nil =>
    intro s es _
    rfl
  | cons p ps ih =>
    intro s es h
    have hp := h p (List.mem_cons_self p ps)
    cases hc : s p.title with
    | none =>
      rw [hc] at hp
      simp at hp
    | some curr =>
      have hps : ∀ q ∈ ps,
          (Snapshot.set s p.title ⟨p.rev, p.status⟩ q.title).isSome = true :=
        fun q hq =>
          Snapshot.set_isSome _ _ _ _ (h q (List.mem_cons_of_mem p hq))
      simp only [runLoop110, runLoop, hc]
      by_cases hab : curr.rev > p.rev
      · simp [hab]
      · by_cases hw : notifyWorthy curr p.rev p.status
        · simp only [if_neg hab, if_pos hw]
          exact ih _ _ hps
        · simp only [if_neg hab, if_neg hw]
          exact ih _ _ hps

/-- C10, counterexample: previous snapshot `B.js -> {rev 1, awaiting}`,
fetched records `[A.js, rev 5, awaiting]`.  v1.1.1 seeds `A.js` and writes
the cache; v1.1.0 throws on the record with no stored entry, leaving `A.js`
unset and the cache unwritten — the two versions disagree on the resulting
snapshot and on persistence. -/
theorem c10_counterexample :
    ¬ ((callback110
          (some (Snapshot.set emptySnapshot "B.js" ⟨1, Status.awaiting⟩))
          [⟨"A.js", 5, Status.awaiting⟩]).data "A.js" =
        (callback
          (some (Snapshot.set emptySnapshot "B.js" ⟨1, Status.awaiting⟩))
          [⟨"A.js", 5, Status.awaiting⟩]).data "A.js" ∧
      (callback110
          (some (Snapshot.set emptySnapshot "B.js" ⟨1, Status.awaiting⟩))
          [⟨"A.js", 5, Status.awaiting⟩]).saved =
        (callback
          (some (Snapshot.set emptySnapshot "B.js" ⟨1, Status.awaiting⟩))
          [⟨"A.js", 5, Status.awaiting⟩]).saved) := by
  decide

/-- C10, amended: the two bundled versions are equivalent only on cycles in
which every fetched record's title already has a snapshot entry; on those
they produce the same resulting snapshot, the same emitted notification
items and the same save outcome (v1.1.0 merely also calls the webhook with
an empty batch when nothing is notify-worthy).  On a record with no stored
entry v1.1.0 instead throws, posting and saving nothing. -/
theorem c10_theorem (s : Snapshot) (pages : List PageRecord)
    (h : ∀ p ∈ pages, (s p.title).isSome = true) :
    (∀ t, (callback110 (some s) pages).data t =
      (callback (some s) pages).data t) ∧
    (callback110 (some s) pages).posted = (callback (some s) pages).posted ∧
    (callback110 (some s) pages).saved = (callback (some s) pages).saved := by
  have key := runLoop110_eq_ok pages s [] h
  simp only [callback, callback110, initialData_some, key]
  by_cases hab : (runLoop s [] pages).aborted
  · simp [hab]
  · simp [hab]

/-- Witness for `c10_theorem`: both versions agree on a cycle whose single
record updates an existing entry. -/
theorem c10_witness :
    (callback110 (some (Snapshot.set emptySnapshot "A.js" ⟨5, Status.awaiting⟩))
        [⟨"A.js", 6, Status.live⟩]).data "A.js" =
      (callback (some (Snapshot.set emptySnapshot "A.js" ⟨5, Status.awaiting⟩))
        [⟨"A.js", 6, Status.live⟩]).data "A.js" ∧
    (callback110 (some (Snapshot.set emptySnapshot "A.js" ⟨5, Status.awaiting⟩))
        [⟨"A.js", 6, Status.live⟩]).posted =
      (callback (some (Snapshot.set emptySnapshot "A.js" ⟨5, Status.awaiting⟩))
        [⟨"A.js", 6, Status.live⟩]).posted ∧
    (callback110 (some (Snapshot.set emptySnapshot "A.js" ⟨5, Status.awaiting⟩))
        [⟨"A.js", 6, Status.live⟩]).saved =
      (callback (some (Snapshot.set emptySnapshot "A.js" ⟨5, Status.awaiting⟩))
        [⟨"A.js", 6, Status.live⟩]).saved :=
  ⟨ ( c10_theorem (Snapshot.set emptySnapshot "A.js" ⟨5, Status.awaiting⟩)
      [⟨"A.js", 6, Status.live⟩] (by decide)).1 "A.js",
    ( c10_theorem (Snapshot.set emptySnapshot "A.js" ⟨5, Status.awaiting⟩)
      [⟨"A.js", 6, Status.live⟩] (by decide)).2.1,
    ( c10_theorem (Snapshot.set emptySnapshot "A.js" ⟨5, Status.awaiting⟩)
      [⟨"A.js", 6, Status.live⟩] (by decide)).2.2⟩

end ContentReviewLog
